import Mathlib

/-!
Shallow embedding of `generate-font.mjs`: an SVG-to-icon-font pipeline.
Pure helpers (glyph-name sanitization, code-point assignment, CSS emission,
change-detector hash input) are translated directly; the stateful `main`
driver is modelled as a pure function over an explicit environment record.
-/

namespace GenerateFont

/-- The JS character class `[a-zA-Z0-9]` used by `sanitizeGlyphName`. -/
def isAlnum (c : Char) : Bool :=
  ('a' ≤ c && c ≤ 'z') || ('A' ≤ c && c ≤ 'Z') || ('0' ≤ c && c ≤ '9')

/-- One step of `name.replace(/[^a-zA-Z0-9]/g, '-')`: a character in the
class is kept, any other character becomes a hyphen. -/
def sanitizeChar (c : Char) : Char :=
  if isAlnum c then c else '-'

/-- `sanitizeGlyphName` from `generate-font.mjs`:
`name.replace(/[^a-zA-Z0-9]/g, '-')`, i.e. the character-wise map of
`sanitizeChar` over the string. -/
def sanitizeGlyphName (name : String) : String :=
  String.mk (name.data.map sanitizeChar)

/-- The code point given to the glyph at position `index`:
`String.fromCharCode(0xe000 + index)` followed by `charCodeAt(0)`.
`String.fromCharCode` applies ToUint16, hence the reduction mod 2^16. -/
def assignCodePoint (index : Nat) : Nat :=
  (0xe000 + index) % 65536

/-- The byte string fed to the MD5 hash in `getSVGFilesHash`: the decimal
file count, then for each file its path immediately followed by its decimal
size — no separators between any of the fields. -/
def getSVGFilesHashInput (entries : List (String × Nat)) : String :=
  toString entries.length ++ String.join (entries.map (fun e => e.1 ++ toString e.2))

/-- `getSVGFilesHash`, with the MD5 digest function abstracted: the digest
is MD5 applied to the concatenated update sequence. -/
def getSVGFilesHash (md5 : String → String) (entries : List (String × Nat)) : String :=
  md5 (getSVGFilesHashInput entries)

/-- The characters of a path after its last `/` (the basename part of
node's `path.basename`). -/
def afterLastSlash (l : List Char) : List Char :=
  l.foldl (fun acc c => if c = '/' then [] else acc ++ [c]) []

/-- Node `path.basename(p, ext)` suffix handling: the extension is removed
only when it is a proper suffix of the basename. -/
def stripSuffix (l ext : List Char) : List Char :=
  if ext.isSuffixOf l && l != ext then l.take (l.length - ext.length) else l

/-- Model of node's `path.basename(p, ext)` for POSIX paths. -/
def basename (p ext : String) : String :=
  String.mk (stripSuffix (afterLastSlash p.data) ext.data)

/-- The glyph name derived for a collected file in `generateFont`:
`sanitizeGlyphName(path.basename(file, '.svg'))`. -/
def glyphNameOf (file : String) : String :=
  sanitizeGlyphName (basename file ".svg")

/-- JS `codePoint.toString(16)`: lowercase hexadecimal, no padding. -/
def toHex (n : Nat) : String :=
  String.mk (Nat.toDigits 16 n)

/-- One stylesheet glyph rule, as pushed onto `cssContent`:
`.icon-NAME:before { content: "\HEX"; }`. -/
def cssRule (glyphName : String) (cp : Nat) : String :=
  ".icon-" ++ glyphName ++ ":before \x7b content: \"\\" ++ toHex cp ++ "\"; \x7d"

/-- The `cssContent` array built by the `svgFiles.forEach` loop, starting
from position `i`: one rule per file, indexed in collection order. -/
def cssContentFrom : Nat → List String → List String
  | _, [] => []
  | i, file :: rest =>
      cssRule (glyphNameOf file) (assignCodePoint i) :: cssContentFrom (i + 1) rest

/-- The complete `cssContent` array (indices start at 0). -/
def cssContent (svgFiles : List String) : List String :=
  cssContentFrom 0 svgFiles

/-- The `fontFace` template literal of `generate-font.mjs`, byte for byte
(the source lines carry trailing spaces before each newline). -/
def fontFace (fontName : String) : String :=
  "\n@font-face \x7b \n  " ++
  ("font-family: '" ++ fontName ++ "'; ") ++
  "\n  " ++ ("src: url('" ++ fontName ++ ".woff2') format('woff2'); ") ++
  "\n  " ++ "font-weight: normal; " ++
  "\n  " ++ "font-style: normal; " ++
  "\n\x7d \n" ++
  ("[class^=\"icon-\"], [class*=\" icon-\"] \x7b \n  font-family: '" ++ fontName ++
   "' !important; \n  speak: none; \n  font-style: normal; \n  font-weight: normal; \n" ++
   "  font-variant: normal; \n  text-transform: none; \n  line-height: 1; \n" ++
   "  -webkit-font-smoothing: antialiased; \n  -moz-osx-font-smoothing: grayscale; \n\x7d")

/-- `cssOutput`: the font-face block, a blank line, then the glyph rules
joined by newlines. -/
def cssOutput (svgFiles : List String) (fontName : String) : String :=
  fontFace fontName ++ "\n\n" ++ String.intercalate "\n" (cssContent svgFiles)

/-- `needle` occurs contiguously inside `hay`. -/
def containsStr (hay needle : String) : Prop :=
  needle.data <:+: hay.data

end GenerateFont

namespace GenerateFont

/-- C1: `sanitizeGlyphName` is length-preserving, replaces every character
outside `[A-Za-z0-9]` one-for-one with `-`, keeps alphanumerics unchanged,
and its output contains only characters in `[A-Za-z0-9-]`. -/
theorem sanitizeGlyphName_charwise (name : String) :
    (sanitizeGlyphName name).length = name.length ∧
    (∀ i (h : i < name.data.length) (h2 : i < (sanitizeGlyphName name).data.length),
      (sanitizeGlyphName name).data.get ⟨i, h2⟩ =
        if isAlnum (name.data.get ⟨i, h⟩) then name.data.get ⟨i, h⟩ else '-') ∧
    (∀ c ∈ (sanitizeGlyphName name).data, isAlnum c = true ∨ c = '-') := by
  refine ⟨?_, ?_, ?_⟩
  · show (name.data.map sanitizeChar).length = name.data.length
    simp
  · intro i h h2
    simp only [sanitizeGlyphName, String.mk] at h2 ⊢
    rw [List.get_map]
    rfl
  · intro c hc
    simp only [sanitizeGlyphName, String.mk, List.mem_map] at hc
    obtain ⟨a, _, rfl⟩ := hc
    by_cases h : isAlnum a = true
    · exact Or.inl (by simp [sanitizeChar, h])
    · exact Or.inr (by simp [sanitizeChar, h])

/-- Witness for C1 at a concrete input: sanitizing `"a b"` keeps length 3,
maps the space at index 1 to `-`, and every output char is alphanumeric
or a hyphen. -/
theorem sanitizeGlyphName_charwise_witness :
    (sanitizeGlyphName "a b").length = ("a b" : String).length ∧
    (sanitizeGlyphName "a b").data.get ⟨1, by decide⟩ = '-' := by
  refine ⟨(sanitizeGlyphName_charwise "a b").1, ?_⟩
  have h := (sanitizeGlyphName_charwise "a b").2.1 1 (by decide) (by decide)
  rw [h]
  decide

/-- C10: `sanitizeGlyphName` is idempotent — an already-sanitized name
passes through unchanged. -/
theorem sanitizeGlyphName_idempotent (s : String) :
    sanitizeGlyphName (sanitizeGlyphName s) = sanitizeGlyphName s := by
  simp only [sanitizeGlyphName, List.map_map]
  congr 1
  apply List.map_congr_left
  intro c _
  by_cases h : isAlnum c = true <;> simp [Function.comp, sanitizeChar, h]

/-- C2: each glyph's code point is `0xE000 + index` for indices below
0x2000; the assignment is injective on that range; beyond it there is no
bound check and the value silently drifts to a different, still-valid
code point. -/
theorem assignCodePoint_spec :
    (∀ i, i < 0x2000 → assignCodePoint i = 0xe000 + i) ∧
    (∀ i j, i < 0x2000 → j < 0x2000 → i ≠ j → assignCodePoint i ≠ assignCodePoint j) ∧
    (∀ i, 0x2000 ≤ i → i < 0x10000 →
      assignCodePoint i ≠ 0xe000 + i ∧ assignCodePoint i < 0xe000 ∧
      assignCodePoint i < 0x110000) := by
  refine ⟨?_, ?_, ?_⟩
  · intro i hi
    simp only [assignCodePoint]
    omega
  · intro i j hi hj hne
    simp only [assignCodePoint]
    omega
  · intro i h1 h2
    simp only [assignCodePoint]
    omega

/-- Witness for C2 at concrete indices: index 3 maps to U+E003, indices 0
and 1 get distinct code points, and index 0x2000 drifts below the private
sub-range. -/
theorem assignCodePoint_spec_witness :
    assignCodePoint 3 = 0xe003 ∧
    assignCodePoint 0 ≠ assignCodePoint 1 ∧
    assignCodePoint 0x2000 < 0xe000 :=
  ⟨assignCodePoint_spec.1 3 (by decide),
   assignCodePoint_spec.2.1 0 1 (by decide) (by decide) (by decide),
   (assignCodePoint_spec.2.2 0x2000 (by decide) (by decide)).2.1⟩

end GenerateFont

namespace GenerateFont

lemma cssContentFrom_length (files : List String) :
    ∀ i, (cssContentFrom i files).length = files.length := by
  induction files with
  | nil => intro i; rfl
  | cons f rest ih => intro i; simp [cssContentFrom, ih]

lemma cssContentFrom_get (files : List String) :
    ∀ i k (h : k < files.length) (h2 : k < (cssContentFrom i files).length),
      (cssContentFrom i files).get ⟨k, h2⟩ =
        cssRule (glyphNameOf (files.get ⟨k, h⟩)) (assignCodePoint (i + k)) := by
  induction files with
  | nil => intro i k h; exact absurd h (by simp)
  | cons f rest ih =>
      intro i k h h2
      cases k with
      | zero => rfl
      | succ m =>
          have hm : m < rest.length := Nat.lt_of_succ_lt_succ h
          have hm2 : m < (cssContentFrom (i + 1) rest).length := by
            rw [cssContentFrom_length]
            exact hm
          have hrec := ih (i + 1) m hm hm2
          have hi : i + 1 + m = i + (m + 1) := by omega
          rw [hi] at hrec
          exact hrec

lemma containsStr_middle (a b c : String) : containsStr (a ++ b ++ c) b :=
  ⟨a.data, c.data, by rw [String.data_append, String.data_append]⟩

/-- C3: for a non-empty input set the stylesheet is one font-face block
(with the family, woff2 src, weight and style fields), then the glyph
rules: one per collected file, in collection order, each of the form
`.icon-NAME:before { content: "\HEX"; }` with the code point in hex. -/
theorem cssOutput_spec (svgFiles : List String) (fontName : String)
    (hne : svgFiles ≠ []) :
    (cssContent svgFiles).length = svgFiles.length ∧
    cssOutput svgFiles fontName =
      fontFace fontName ++ "\n\n" ++ String.intercalate "\n" (cssContent svgFiles) ∧
    (∀ k (h : k < svgFiles.length) (h2 : k < (cssContent svgFiles).length),
      (cssContent svgFiles).get ⟨k, h2⟩ =
        ".icon-" ++ glyphNameOf (svgFiles.get ⟨k, h⟩) ++ ":before \x7b content: \"\\" ++
          toHex (assignCodePoint k) ++ "\"; \x7d") ∧
    containsStr (fontFace fontName) ("font-family: '" ++ fontName ++ "'; ") ∧
    containsStr (fontFace fontName) ("src: url('" ++ fontName ++ ".woff2') format('woff2'); ") ∧
    containsStr (fontFace fontName) "font-weight: normal; " ∧
    containsStr (fontFace fontName) "font-style: normal; " := by
  refine ⟨cssContentFrom_length svgFiles 0, rfl, ?_, ?_, ?_, ?_, ?_⟩
  · intro k h h2
    have hr := cssContentFrom_get svgFiles 0 k h h2
    rw [Nat.zero_add] at hr
    exact hr
  · have e : fontFace fontName =
        "\n@font-face \x7b \n  " ++ ("font-family: '" ++ fontName ++ "'; ") ++
        ("\n  " ++ ("src: url('" ++ fontName ++ ".woff2') format('woff2'); ") ++
         "\n  " ++ "font-weight: normal; " ++ "\n  " ++ "font-style: normal; " ++
         "\n\x7d \n" ++
         ("[class^=\"icon-\"], [class*=\" icon-\"] \x7b \n  font-family: '" ++ fontName ++
          "' !important; \n  speak: none; \n  font-style: normal; \n  font-weight: normal; \n" ++
          "  font-variant: normal; \n  text-transform: none; \n  line-height: 1; \n" ++
          "  -webkit-font-smoothing: antialiased; \n  -moz-osx-font-smoothing: grayscale; \n\x7d")) := by
      simp only [fontFace, String.append_assoc]
    rw [e]
    exact containsStr_middle _ _ _
  · have e : fontFace fontName =
        ("\n@font-face \x7b \n  " ++ ("font-family: '" ++ fontName ++ "'; ") ++ "\n  ") ++
        ("src: url('" ++ fontName ++ ".woff2') format('woff2'); ") ++
        ("\n  " ++ "font-weight: normal; " ++ "\n  " ++ "font-style: normal; " ++
         "\n\x7d \n" ++
         ("[class^=\"icon-\"], [class*=\" icon-\"] \x7b \n  font-family: '" ++ fontName ++
          "' !important; \n  speak: none; \n  font-style: normal; \n  font-weight: normal; \n" ++
          "  font-variant: normal; \n  text-transform: none; \n  line-height: 1; \n" ++
          "  -webkit-font-smoothing: antialiased; \n  -moz-osx-font-smoothing: grayscale; \n\x7d")) := by
      simp only [fontFace, String.append_assoc]
    rw [e]
    exact containsStr_middle _ _ _
  · have e : fontFace fontName =
        ("\n@font-face \x7b \n  " ++ ("font-family: '" ++ fontName ++ "'; ") ++
         "\n  " ++ ("src: url('" ++ fontName ++ ".woff2') format('woff2'); ") ++ "\n  ") ++
        "font-weight: normal; " ++
        ("\n  " ++ "font-style: normal; " ++ "\n\x7d \n" ++
         ("[class^=\"icon-\"], [class*=\" icon-\"] \x7b \n  font-family: '" ++ fontName ++
          "' !important; \n  speak: none; \n  font-style: normal; \n  font-weight: normal; \n" ++
          "  font-variant: normal; \n  text-transform: none; \n  line-height: 1; \n" ++
          "  -webkit-font-smoothing: antialiased; \n  -moz-osx-font-smoothing: grayscale; \n\x7d")) := by
      simp only [fontFace, String.append_assoc]
    rw [e]
    exact containsStr_middle _ _ _
  · have e : fontFace fontName =
        ("\n@font-face \x7b \n  " ++ ("font-family: '" ++ fontName ++ "'; ") ++
         "\n  " ++ ("src: url('" ++ fontName ++ ".woff2') format('woff2'); ") ++
         "\n  " ++ "font-weight: normal; " ++ "\n  ") ++
        "font-style: normal; " ++
        ("\n\x7d \n" ++
         ("[class^=\"icon-\"], [class*=\" icon-\"] \x7b \n  font-family: '" ++ fontName ++
          "' !important; \n  speak: none; \n  font-style: normal; \n  font-weight: normal; \n" ++
          "  font-variant: normal; \n  text-transform: none; \n  line-height: 1; \n" ++
          "  -webkit-font-smoothing: antialiased; \n  -moz-osx-font-smoothing: grayscale; \n\x7d")) := by
      simp only [fontFace, String.append_assoc]
    rw [e]
    exact containsStr_middle _ _ _

/-- Witness for C3 on the spec's round-trip example: three files yield
three rules, and rule 0 is `.icon-a:before { content: "\e000"; }`. -/
theorem cssOutput_spec_witness :
    (cssContent ["svg/a.svg", "svg/b.svg", "svg/c-1.svg"]).length = 3 ∧
    (cssContent ["svg/a.svg", "svg/b.svg", "svg/c-1.svg"]).get ⟨0, by decide⟩ =
      ".icon-a:before \x7b content: \"\\e000\"; \x7d" := by
  have h := cssOutput_spec ["svg/a.svg", "svg/b.svg", "svg/c-1.svg"] "icons" (by decide)
  refine ⟨h.1, ?_⟩
  have h0 := h.2.2.1 0 (by decide) (by decide)
  rw [h0]
  rfl

/-- C4 counterexample: two {path, size} sequences that differ in a path
and in a size but feed the identical byte string to MD5 — the fields are
concatenated with no separators, so `"a.svg" ++ "1" ++ "2b.svg" ++ "3"`
equals `"a.svg" ++ "12" ++ "b.svg" ++ "3"`. Any digest function therefore
returns the same digest for both. -/
theorem getSVGFilesHash_collision :
    getSVGFilesHashInput [("a.svg", 1), ("2b.svg", 3)] =
      getSVGFilesHashInput [("a.svg", 12), ("b.svg", 3)] ∧
    ([("a.svg", 1), ("2b.svg", 3)] : List (String × Nat)) ≠
      [("a.svg", 12), ("b.svg", 3)] := by
  exact ⟨rfl, by decide⟩

/-- C4 amended: the digest is a pure function of the concatenated hash
input — identical sequences give identical digests, and more generally any
two sequences with the same hash input give the same digest, for every
digest function. -/
theorem getSVGFilesHash_deterministic (md5 : String → String)
    (s t : List (String × Nat)) :
    (s = t → getSVGFilesHash md5 s = getSVGFilesHash md5 t) ∧
    (getSVGFilesHashInput s = getSVGFilesHashInput t →
      getSVGFilesHash md5 s = getSVGFilesHash md5 t) := by
  refine ⟨fun h => by rw [h], fun h => ?_⟩
  simp only [getSVGFilesHash]
  exact congrArg md5 h

/-- Witness for C4 amended at a concrete sequence. -/
theorem getSVGFilesHash_deterministic_witness :
    getSVGFilesHash (fun s => s) [("svg/a.svg", 7)] =
      getSVGFilesHash (fun s => s) [("svg/a.svg", 7)] :=
  (getSVGFilesHash_deterministic (fun s => s) [("svg/a.svg", 7)] [("svg/a.svg", 7)]).1 rfl

end GenerateFont

namespace GenerateFont

/-- Pipeline outcomes of one run (the spec's error taxonomy plus success). -/
inductive Outcome where
  | success
  | directoryNotFound
  | noInputFiles
  | userAborted
  | fontAssemblyError
  | transcodeError
deriving DecidableEq

/-- The world one run observes: input-directory existence, the raw
directory listing, prior-output existence, the interactive answer, and
whether the font assembly and the two transcode steps succeed. -/
structure RunEnv where
  dirExists : Bool
  listing : List String
  outputExists : Bool
  answer : String
  assemblyOk : Bool
  transcodeOk : Bool
deriving DecidableEq

/-- Observable result of one run: terminal outcome, process exit status,
whether the output directory was created, and the output files written. -/
structure RunResult where
  outcome : Outcome
  exitCode : Nat
  outputDirCreated : Bool
  filesWritten : List String
deriving DecidableEq

/-- `readSVGFiles`: keep the listing entries whose name ends in `.svg`,
then join each with the directory. -/
def readSVGFiles (directory : String) (listing : List String) : List String :=
  (listing.filter (fun f => List.isSuffixOf ".svg".data f.data)).map
    (fun f => directory ++ "/" ++ f)

/-- JS `answer.trim()`: strip leading and trailing whitespace. -/
def jsTrim (l : List Char) : List Char :=
  ((l.dropWhile Char.isWhitespace).reverse.dropWhile Char.isWhitespace).reverse

/-- The overwrite-confirmation predicate of `main`:
`answer.trim().toLowerCase() === 's'`. -/
def jsConfirm (answer : String) : Bool :=
  (jsTrim answer.data).map Char.toLower == ['s']

/-- `generateFont`, folded to its observable outcome: an assembler failure
surfaces on the stream error path and a transcode failure in the catch
block of the finish handler — both only log and close the prompt; only a
fully successful run writes the woff2 asset and the stylesheet. -/
def generateFontRun (assemblyOk transcodeOk : Bool) (fontName : String) :
    Outcome × List String :=
  if assemblyOk then
    if transcodeOk then
      (Outcome.success, [fontName ++ ".woff2", fontName ++ ".css"])
    else (Outcome.transcodeError, [])
  else (Outcome.fontAssemblyError, [])

/-- The `main` IIFE of `generate-font.mjs`: missing `svg/` directory and
empty filtered listing call `process.exit(1)`; a declined overwrite
confirmation, and every later path, ends the process normally (exit 0).
The output directory is created only after both input checks pass and
only when it did not already exist. -/
def main (env : RunEnv) : RunResult :=
  if env.dirExists then
    if (readSVGFiles "svg" env.listing).isEmpty then
      { outcome := Outcome.noInputFiles, exitCode := 1,
        outputDirCreated := false, filesWritten := [] }
    else if env.outputExists && !jsConfirm env.answer then
      { outcome := Outcome.userAborted, exitCode := 0,
        outputDirCreated := false, filesWritten := [] }
    else
      { outcome := (generateFontRun env.assemblyOk env.transcodeOk "icons").1,
        exitCode := 0, outputDirCreated := !env.outputExists,
        filesWritten := (generateFontRun env.assemblyOk env.transcodeOk "icons").2 }
  else
    { outcome := Outcome.directoryNotFound, exitCode := 1,
      outputDirCreated := false, filesWritten := [] }

end GenerateFont

namespace GenerateFont

/-- C5 counterexample: a run whose font assembly fails is terminal and
writes nothing, but the process exits with status 0 — the stream error
handler only logs and closes the prompt, it never calls `process.exit`.
This contradicts the claimed non-zero exit status for every error class. -/
theorem assembly_error_exits_zero :
    (main ⟨true, ["a.svg"], false, "", false, true⟩).outcome =
      Outcome.fontAssemblyError ∧
    (main ⟨true, ["a.svg"], false, "", false, true⟩).exitCode = 0 := by
  exact ⟨rfl, rfl⟩

/-- C5 amended: every error is terminal with no partial output — an
unsuccessful run writes no files and a successful run writes exactly the
woff2 asset and the stylesheet; DirectoryNotFound and NoInputFiles exit
with status 1, while FontAssemblyError, TranscodeError and UserAborted
end the process with status 0. -/
theorem errors_terminal (env : RunEnv) :
    ((main env).outcome ≠ Outcome.success → (main env).filesWritten = []) ∧
    ((main env).outcome = Outcome.success →
      (main env).filesWritten = ["icons.woff2", "icons.css"]) ∧
    (((main env).outcome = Outcome.directoryNotFound ∨
      (main env).outcome = Outcome.noInputFiles) → (main env).exitCode = 1) ∧
    (((main env).outcome = Outcome.fontAssemblyError ∨
      (main env).outcome = Outcome.transcodeError ∨
      (main env).outcome = Outcome.userAborted) → (main env).exitCode = 0) := by
  rcases env with ⟨de, ls, oe, ans, ak, tk⟩
  cases de <;> cases oe <;> cases ak <;> cases tk <;>
    simp only [main, generateFontRun] <;> split_ifs <;>
    simp_all

/-- Witness for C5 amended: a fully successful run writes both files. -/
theorem errors_terminal_witness :
    (main ⟨true, ["a.svg"], false, "", true, true⟩).filesWritten =
      ["icons.woff2", "icons.css"] :=
  (errors_terminal ⟨true, ["a.svg"], false, "", true, true⟩).2.1 rfl

/-- C6: with an existing input directory whose listing has no `.svg`
entry, the run ends as NoInputFiles with exit 1, no directory creation
and no file writes. -/
theorem empty_input_terminal (env : RunEnv) (hdir : env.dirExists = true)
    (hempty : ∀ f ∈ env.listing, List.isSuffixOf ".svg".data f.data = false) :
    main env = ⟨Outcome.noInputFiles, 1, false, []⟩ := by
  have hfil : env.listing.filter (fun f => List.isSuffixOf ".svg".data f.data) = [] := by
    rw [List.filter_eq_nil]
    intro a ha
    simp [hempty a ha]
  simp [main, hdir, readSVGFiles, hfil]

/-- Witness for C6: an existing directory listing only `readme.txt`. -/
theorem empty_input_terminal_witness :
    main ⟨true, ["readme.txt"], false, "", true, true⟩ =
      ⟨Outcome.noInputFiles, 1, false, []⟩ :=
  empty_input_terminal ⟨true, ["readme.txt"], false, "", true, true⟩ rfl (by decide)

/-- C7 counterexample: a missing-directory run and an empty-listing run
both terminate via `process.exit(1)` — the two outcomes share the same
exit code instead of using distinct ones. -/
theorem exit_codes_shared :
    (main ⟨false, [], false, "", true, true⟩).outcome = Outcome.directoryNotFound ∧
    (main ⟨true, [], false, "", true, true⟩).outcome = Outcome.noInputFiles ∧
    (main ⟨false, [], false, "", true, true⟩).exitCode =
      (main ⟨true, [], false, "", true, true⟩).exitCode := by
  exact ⟨rfl, rfl, rfl⟩

/-- C7 amended: DirectoryNotFound and NoInputFiles both exit with the
same non-zero code 1 — distinguishing them from success (exit 0) but not
from each other. -/
theorem exit_code_signaling (env : RunEnv) :
    (((main env).outcome = Outcome.directoryNotFound ∨
      (main env).outcome = Outcome.noInputFiles) → (main env).exitCode = 1) ∧
    ((main env).outcome = Outcome.success → (main env).exitCode = 0) := by
  rcases env with ⟨de, ls, oe, ans, ak, tk⟩
  cases de <;> cases oe <;> cases ak <;> cases tk <;>
    simp only [main, generateFontRun] <;> split_ifs <;>
    simp_all

/-- Witness for C7 amended: the missing-directory run exits 1. -/
theorem exit_code_signaling_witness :
    (main ⟨false, [], false, "", true, true⟩).exitCode = 1 :=
  (exit_code_signaling ⟨false, [], false, "", true, true⟩).1 (Or.inl rfl)

/-- C8: when prior output exists and the confirmation is declined, the
run ends as UserAborted having written nothing and created nothing. -/
theorem decline_aborts (env : RunEnv) (hdir : env.dirExists = true)
    (hfiles : (readSVGFiles "svg" env.listing).isEmpty = false)
    (hout : env.outputExists = true) (hans : jsConfirm env.answer = false) :
    main env = ⟨Outcome.userAborted, 0, false, []⟩ := by
  simp [main, hdir, hfiles, hout, hans]

/-- Witness for C8: one `.svg` input, existing output, answer `n`. -/
theorem decline_aborts_witness :
    main ⟨true, ["a.svg"], true, "n", true, true⟩ =
      ⟨Outcome.userAborted, 0, false, []⟩ :=
  decline_aborts ⟨true, ["a.svg"], true, "n", true, true⟩ rfl (by decide) rfl (by decide)

end GenerateFont

namespace GenerateFont

lemma afterLastSlash_acc (ys : List Char) :
    ∀ acc, '/' ∉ ys →
      ys.foldl (fun acc c => if c = '/' then [] else acc ++ [c]) acc = acc ++ ys := by
  induction ys with
  | nil => intro acc _; simp
  | cons c cs ih =>
      intro acc h
      have hc : c ≠ '/' := fun hc => h (hc ▸ List.mem_cons_self c cs)
      rw [List.foldl_cons, if_neg hc, ih (acc ++ [c]) (fun hm => h (List.mem_cons_of_mem c hm))]
      simp

lemma afterLastSlash_eq (xs ys : List Char) (h : '/' ∉ ys) :
    afterLastSlash (xs ++ '/' :: ys) = ys := by
  unfold afterLastSlash
  rw [List.foldl_append, List.foldl_cons]
  simp only [if_pos]
  rw [afterLastSlash_acc ys [] h]
  simp

lemma stripSuffix_append (b ext : List Char) (hb : b ≠ []) :
    stripSuffix (b ++ ext) ext = b := by
  have hsuf : ext.isSuffixOf (b ++ ext) = true := by
    rw [List.isSuffixOf_iff_suffix]
    exact List.suffix_append b ext
  have hne : b ++ ext ≠ ext := by
    intro h
    have hlen := congrArg List.length h
    simp at hlen
    exact hb hlen
  have hbne : (b ++ ext != ext) = true := bne_iff_ne.mpr hne
  unfold stripSuffix
  rw [hsuf, hbne]
  simp only [Bool.and_self, if_pos]
  rw [List.length_append, Nat.add_sub_cancel]
  exact List.take_left b ext

/-- C9 counterexample: the file `x.svg.svg` is collected (it ends in
`.svg`), yet its glyph name is `x-svg` — `path.basename` strips only one
`.svg`, and sanitization turns the inner dot into a hyphen, so the glyph
name and selector do end with `-svg`. -/
theorem glyphName_svg_suffix_example :
    List.isSuffixOf ".svg".data ("x.svg.svg" : String).data = true ∧
    glyphNameOf "svg/x.svg.svg" = "x-svg" ∧
    List.isSuffixOf "-svg".data (glyphNameOf "svg/x.svg.svg").data = true := by
  exact ⟨by decide, by decide, by decide⟩

/-- C9 amended: the `.svg` extension is removed before sanitization — for
any directory and any non-empty slash-free base name, the glyph name of
`dir/base.svg` is exactly `sanitizeGlyphName base` (so `a.b.svg` yields
`a-b`, not `a-b-svg`); only a basename whose remaining part itself ends
in `.svg`, such as `x.svg.svg`, still sanitizes to a `-svg` suffix. -/
theorem glyphName_strips_extension (p b : String) (hb : b.data ≠ [])
    (hslash : '/' ∉ b.data) :
    glyphNameOf (p ++ "/" ++ b ++ ".svg") = sanitizeGlyphName b := by
  have hdata : (p ++ "/" ++ b ++ ".svg").data =
      p.data ++ '/' :: (b.data ++ (".svg" : String).data) := by
    simp [String.data_append]
  have hnoslash : '/' ∉ b.data ++ (".svg" : String).data := by
    intro hmem
    rcases List.mem_append.mp hmem with h1 | h2
    · exact hslash h1
    · simp at h2
  have hbase : basename (p ++ "/" ++ b ++ ".svg") ".svg" = b := by
    unfold basename
    rw [hdata, afterLastSlash_eq _ _ hnoslash, stripSuffix_append _ _ hb]
  rw [glyphNameOf, hbase]

/-- Witness for C9 amended: `svg/a.b.svg` yields glyph name `a-b`. -/
theorem glyphName_strips_extension_witness :
    glyphNameOf ("svg" ++ "/" ++ "a.b" ++ ".svg") = sanitizeGlyphName "a.b" ∧
    sanitizeGlyphName "a.b" = "a-b" :=
  ⟨glyphName_strips_extension "svg" "a.b" (by decide) (by decide), by decide⟩

end GenerateFont
